import Mathlib

/-!
Shallow embedding of `src/calculations.ts` of the asset-risk-dash repository.

Conventions of the embedding:
* JavaScript numbers are embedded as exact rationals (`ℚ`) wherever the
  source only performs field operations, comparisons, `Math.floor`,
  `Math.min`/`Math.max` and the 32-bit integer mixing of `mulberry32`
  (every finite IEEE double is a rational, and all literals are kept exact);
  values that pass through `Math.exp`, `Math.cos` or `Math.PI`
  (the risk curves) live in `ℝ`.
* The 32-bit operations of `mulberry32` (`imul`, `^`, `>>>`, `|`, the
  int32 coercion of `^=`) are `Nat` operations taken `% 2^32`.
* The stateful per-sample loops of `generateRiskCurves` (the failure-index
  scan and the Fix-on-Risk sawtooth) become primitive recursions over the
  sample index, carrying exactly the source's state.
* The entry point's observable behavior is modelled by `JsOutcome`
  (`simulateJs`): it returns a result record except on the two paths where
  the JavaScript runtime fails — indexing the empty cost array at
  `points = 0` (a thrown `TypeError`) and the never-terminating Fix-in-Plan
  cycle loop at `cycleLength = 0` with positive lifespan and at least one
  sample.
-/

namespace AssetRisk

/-- The constant `2^32`, the modulus of all 32-bit operations in `mulberry32`. -/
def M32 : ℕ := 4294967296

/-- The four maintenance strategies (`StrategyKey` in the source). -/
inductive StrategyKey
  | noFix
  | fixInPlan
  | fixOnFail
  | fixOnRisk
deriving DecidableEq, Repr

/-- The input parameter record (`DashboardParams` in the source). -/
structure DashboardParams where
  lifespanYears : ℚ
  replacementCost : ℚ
  riskAlpha : ℚ
  minLof : ℚ
  cycleLengthYears : ℚ
  threshold : ℚ
  points : ℕ
deriving DecidableEq, Repr

/-- One curve sample (`CurvePoint` in the source), with the value type as a
parameter: `ℚ` for cost curves, `ℝ` for risk curves. -/
structure CurvePoint (α : Type) where
  t : α
  x : α
  noFix : α
  fixInPlan : α
  fixOnFail : α
  fixOnRisk : α
deriving Repr, DecidableEq

instance {α : Type} [Inhabited α] : Inhabited (CurvePoint α) :=
  ⟨⟨default, default, default, default, default, default⟩⟩

/-- The per-strategy field of a curve point (reading one key of the record). -/
def stratVal {α : Type} (k : StrategyKey) (p : CurvePoint α) : α :=
  match k with
  | .noFix => p.noFix
  | .fixInPlan => p.fixInPlan
  | .fixOnFail => p.fixOnFail
  | .fixOnRisk => p.fixOnRisk

/-- One step of `mulberry32`: from the current 32-bit state, the next state and
the raw 32-bit output.  `imul` is multiplication `% 2^32`, `^`/`|`/`>>>` are
`Nat.xor`/`Nat.lor`/`Nat.shiftRight` on values `< 2^32`, and the `^=` coerces
its right operand to 32 bits before the xor. -/
def m32step (s : ℕ) : ℕ × ℕ :=
  let s' := (s + 0x6d2b79f5) % M32
  let a := (((s' ^^^ (s' >>> 15)) * (s' ||| 1)) % M32)
  let b := a ^^^ ((a + (((a ^^^ (a >>> 7)) * (a ||| 61)) % M32)) % M32)
  (s', b ^^^ (b >>> 14))

/-- The state of `mulberry32 seed` after `n` draws. -/
def m32state (seed : ℕ) : ℕ → ℕ
  | 0 => seed
  | n + 1 => (m32step (m32state seed n)).1

/-- The raw 32-bit output of draw number `n` (0-based) of `mulberry32 seed`. -/
def m32raw (seed : ℕ) (n : ℕ) : ℕ :=
  (m32step (m32state seed n)).2

/-- Draw number `n` (0-based) of `mulberry32 seed` as a fraction in `[0,1)`:
the source divides the unsigned 32-bit output by `4294967296`. -/
def rngFrac (seed : ℕ) (n : ℕ) : ℚ :=
  (m32raw seed n : ℚ) / 4294967296

/-- The fixed seed both curve generators use. -/
def rngSeed : ℕ := 42

/-- The count `maxFailures` = `Math.max(3, Math.floor(2 + 3 * Math.pow(1, 2)))`, kept as
the source's formula (it evaluates to 5). -/
def maxFailures : ℕ :=
  max 3 (Int.toNat ⌊(2 + 3 * (1 : ℚ) ^ 2 : ℚ)⌋)

/-- The clamped failure position for failure index `i` (0-based) of `n` total,
given the offset draw `r`: `min(1, max(0.3, 0.3 + ((i+1)/n)*0.7 + (r*0.1 - 0.05)))`. -/
def failPosition (r : ℚ) (i n : ℕ) : ℚ :=
  min 1 (max 0.3 ((0.3 + (((i : ℚ) + 1) / (n : ℚ)) * 0.7) + (r * 0.1 - 0.05)))

/-- Failure time `i` drawn inside `generateCostCurves`: the offset of failure
`i` is draw `2*i` of the fresh seed-42 sequence, because each failure also
consumes a repair-fraction draw (draw `2*i + 1`) right after its offset. -/
def costFailTime (lifespan : ℚ) (i : ℕ) : ℚ :=
  failPosition (rngFrac rngSeed (2 * i)) i maxFailures * lifespan

/-- Repair cost of failure `i` inside `generateCostCurves`:
`(0.3 + rng()*0.2) * replacementCost`, the rng call being draw `2*i + 1`. -/
def costFailCost (replacementCost : ℚ) (i : ℕ) : ℚ :=
  (0.3 + rngFrac rngSeed (2 * i + 1) * 0.2) * replacementCost

/-- The cost generator's failure schedule (`failTimes`), in drawing order. -/
def costFailTimes (lifespan : ℚ) : List ℚ :=
  (List.range maxFailures).map (costFailTime lifespan)

/-- Failure time `i` drawn inside `generateRiskCurves` (before sorting): the
offset of failure `i` is draw `i`, as this generator draws no repair costs. -/
def riskFailTime (lifespan : ℚ) (i : ℕ) : ℚ :=
  failPosition (rngFrac rngSeed i) i maxFailures * lifespan

/-- The risk generator's failure schedule before its ascending sort. -/
def riskFailTimesUnsorted (lifespan : ℚ) : List ℚ :=
  (List.range maxFailures).map (riskFailTime lifespan)

/-- The risk generator's failure schedule after `failTimes.sort((a,b) => a-b)`. -/
def riskFailTimes (lifespan : ℚ) : List ℚ :=
  List.insertionSort (· ≤ ·) (riskFailTimesUnsorted lifespan)

/-- Intervention time `k` (1-based in the source, here `k : ℕ` is 0-based) of
the Fix-on-Risk schedule: `min(0.3 + (k+1)*0.15, 1) * lifespan`. -/
def interventionTime (lifespan : ℚ) (k : ℕ) : ℚ :=
  min (0.3 + ((k : ℚ) + 1) * 0.15) 1 * lifespan

/-- Normalized sample time `x = i / (points - 1)`. -/
def sampleX (points : ℕ) (i : ℕ) : ℚ :=
  (i : ℚ) / ((points : ℚ) - 1)

/-- Absolute sample time `t = x * lifespan`. -/
def sampleT (lifespan : ℚ) (points : ℕ) (i : ℕ) : ℚ :=
  sampleX points i * lifespan

/-- Sample `i` of the cost curves: the body of the `for` loop of
`generateCostCurves`, which recomputes each strategy's cumulative value from
closed-form sums at every sample. -/
def costPoint (lifespan replacementCost cycleLength : ℚ) (points : ℕ)
    (i : ℕ) : CurvePoint ℚ :=
  let x := sampleX points i
  let t := sampleT lifespan points i
  let baselineNoFix := 0.05 * replacementCost * t / lifespan
  let catastrophicReplacement := if 0.9 * lifespan ≤ t then replacementCost else 0
  let baselineFixInPlan := 0.02 * replacementCost * t / lifespan
  let nCycles := Int.toNat ⌊lifespan / cycleLength⌋
  let cycleCost :=
    ((List.range nCycles).map fun c : ℕ =>
      if ((c : ℚ) + 1) * cycleLength ≤ t then 0.15 * replacementCost else 0).sum
  let baselineFail := 0.01 * replacementCost * t / lifespan
  let emergencyCost :=
    ((List.range maxFailures).map fun j =>
      if costFailTime lifespan j ≤ t then costFailCost replacementCost j else 0).sum
  let baselineRisk := 0.02 * replacementCost * t / lifespan
  let riskInterventionCost :=
    ((List.range 4).map fun k =>
      if interventionTime lifespan k ≤ t then 0.2 * replacementCost else 0).sum
  { t := t
    x := x
    noFix := baselineNoFix + catastrophicReplacement
    fixInPlan := baselineFixInPlan + cycleCost
    fixOnFail := baselineFail + emergencyCost
    fixOnRisk := baselineRisk + riskInterventionCost }

/-- Function `generateCostCurves`: the `_costCurveAlpha` parameter is accepted and
unused, exactly as in the source. -/
def generateCostCurves (lifespan : ℚ) ( _costCurveAlpha : ℚ)
    (replacementCost cycleLength : ℚ) (points : ℕ) : List (CurvePoint ℚ) :=
  (List.range points).map (costPoint lifespan replacementCost cycleLength points)

/-- Truncation toward zero, matching JavaScript's number-to-integer behavior
in `%` (used only with nonnegative numerator and positive divisor here). -/
def jsTrunc (q : ℚ) : ℤ :=
  if 0 ≤ q then ⌊q⌋ else ⌈q⌉

/-- JavaScript's `%` on numbers: `a - b * trunc(a / b)`. -/
def jsMod (a b : ℚ) : ℚ :=
  a - b * (jsTrunc (a / b) : ℚ)

/-- Function `logisticCurve(x, alpha, midpoint) = 1 / (1 + exp(-alpha*(x - midpoint)))`.
Inputs are the rationals the callers pass; the value lives in `ℝ`. -/
noncomputable def logisticCurve (x alpha : ℚ) (midpoint : ℚ := 0.5) : ℝ :=
  1 / (1 + Real.exp (-(alpha : ℝ) * ((x : ℝ) - (midpoint : ℝ))))

/-- Function `calculateLof(ageNormalized, lofAlpha, minLof) = minLof + (1 - minLof) * f`
with `f = logisticCurve(ageNormalized, lofAlpha, 0.7)`. -/
noncomputable def calculateLof (ageNormalized lofAlpha : ℚ) (minLof : ℚ := 0.05) : ℝ :=
  (minLof : ℝ) + (1 - (minLof : ℝ)) * logisticCurve ageNormalized lofAlpha 0.7

/-- The Fix-on-Fail scan state of `generateRiskCurves`: the index into the
sorted failure schedule and the last failure time passed. -/
structure FailScanState where
  idx : ℕ
  lastT : ℚ
deriving DecidableEq, Repr

/-- The `while (failureIndex < failTimes.length && t > failTimes[failureIndex])`
loop: advance the index past all failure times `< t`, recording the last one. -/
def advanceFails (failTimes : List ℚ) (t : ℚ) (st : FailScanState) : FailScanState :=
  if h : st.idx < failTimes.length then
    if failTimes[st.idx] < t then
      advanceFails failTimes t ⟨st.idx + 1, failTimes[st.idx]⟩
    else st
  else st
termination_by failTimes.length - st.idx
decreasing_by omega

/-- The Fix-on-Fail scan state on entry to sample `i` (before sample 0 it is
`{idx := 0, lastT := 0}`; each sample then advances it at its own time). -/
def failScanBefore (failTimes : List ℚ) (lifespan : ℚ) (points : ℕ) : ℕ → FailScanState
  | 0 => ⟨0, 0⟩
  | i + 1 => advanceFails failTimes (sampleT lifespan points i)
      (failScanBefore failTimes lifespan points i)

/-- One Fix-on-Risk sawtooth step at sample `i`: grow the current LOF by
`0.001 * riskAlpha * (1 + 2x)`, then reset to `minLof * 1.5` when it reaches
the threshold (compare-then-reset, before the sample is recorded). -/
def sawtoothNext (riskAlpha minLof threshold : ℚ) (points : ℕ) (cur : ℚ) (i : ℕ) : ℚ :=
  let cur1 := cur + 0.001 * riskAlpha * (1 + 2 * sampleX points i)
  if threshold ≤ cur1 then minLof * 1.5 else cur1

/-- The Fix-on-Risk LOF recorded at sample `i` (the post-reset state; the
state starts at `minLof * 1.5` before sample 0). -/
def fixOnRiskLof (riskAlpha minLof threshold : ℚ) (points : ℕ) : ℕ → ℚ
  | 0 => sawtoothNext riskAlpha minLof threshold points (minLof * 1.5) 0
  | i + 1 => sawtoothNext riskAlpha minLof threshold points
      (fixOnRiskLof riskAlpha minLof threshold points i) (i + 1)

/-- Sample `i` of the risk curves: the body of the `for` loop of
`generateRiskCurves`, with the two stateful strategies read off the
index recursions `failScanBefore`/`advanceFails` and `fixOnRiskLof`. -/
noncomputable def riskPoint (lifespan riskAlpha minLof cof cycleLength threshold : ℚ)
    (failTimes : List ℚ) (points : ℕ) (i : ℕ) : CurvePoint ℝ :=
  let x := sampleX points i
  let t := sampleT lifespan points i
  let lofNoFix := calculateLof x riskAlpha minLof
  let cyclePosition := jsMod t cycleLength / cycleLength
  let wave : ℝ := (1 - Real.cos (2 * Real.pi * (cyclePosition : ℝ))) / 2
  let peakLof := minLof + (0.3 - minLof) * (1 + 0.5 * x)
  let lofFixInPlan : ℝ := (minLof : ℝ) + ((peakLof : ℝ) - (minLof : ℝ)) * wave
  let baselineLof := minLof * 2
  let st0 := failScanBefore failTimes lifespan points i
  let st := advanceFails failTimes t st0
  let nextFailureTime := failTimes.getD st.idx lifespan
  let lofFixOnFail : ℝ :=
    if t < nextFailureTime then
      let denom := nextFailureTime - st.lastT
      let progress := (t - st.lastT) / (if denom = 0 then 1 else denom)
      min ((baselineLof : ℝ) +
        ((0.9 : ℝ) - (baselineLof : ℝ)) * logisticCurve progress (2 * riskAlpha) 0.6) 0.999
    else if t = nextFailureTime then 1
    else if st.idx = st0.idx then (baselineLof : ℝ) else (baselineLof : ℝ) * 2
  { t := (t : ℝ)
    x := (x : ℝ)
    noFix := lofNoFix * (cof : ℝ)
    fixInPlan := lofFixInPlan * (cof : ℝ)
    fixOnFail := lofFixOnFail * (cof : ℝ)
    fixOnRisk := ((fixOnRiskLof riskAlpha minLof threshold points i : ℚ) : ℝ) * (cof : ℝ) }

/-- Function `generateRiskCurves`: re-seeds its own sequence from 42, draws its own
failure schedule (one draw per failure), sorts it ascending, then emits one
point per sample in time order. -/
noncomputable def generateRiskCurves (lifespan riskAlpha minLof cof cycleLength threshold : ℚ)
    (points : ℕ) : List (CurvePoint ℝ) :=
  (List.range points).map
    (riskPoint lifespan riskAlpha minLof cof cycleLength threshold (riskFailTimes lifespan) points)

/-- Function `calculateTotalCosts`: each strategy's value at `costPoints[length - 1]`. -/
def calculateTotalCosts (costPoints : List (CurvePoint ℚ)) : StrategyKey → ℚ :=
  fun k => stratVal k (costPoints[costPoints.length - 1]!)

/-- Function `calculateAverageRisk`: the per-strategy running sum over all points (the
source's fold), divided by the number of points. -/
noncomputable def calculateAverageRisk (riskPoints : List (CurvePoint ℝ)) : StrategyKey → ℝ :=
  fun k => (riskPoints.foldl (fun acc p => acc + stratVal k p) 0) / (riskPoints.length : ℝ)

/-- The result record (`Curves` in the source); the two per-strategy records
are embedded as functions from `StrategyKey`. -/
structure Curves where
  cost : List (CurvePoint ℚ)
  risk : List (CurvePoint ℝ)
  totalCosts : StrategyKey → ℚ
  averageRisk : StrategyKey → ℝ
  thresholdDollar : ℚ

/-- Function `generateDashboardCurves`: derives `cof = replacementCost` and
`costCurveAlpha = riskAlpha * 0.8`, runs both generators (each re-seeding its
own sequence), and assembles the result. -/
noncomputable def generateDashboardCurves (params : DashboardParams) : Curves :=
  let lifespan := params.lifespanYears
  let cof := params.replacementCost
  let costCurveAlpha := params.riskAlpha * 0.8
  let costPoints := generateCostCurves lifespan costCurveAlpha params.replacementCost
    params.cycleLengthYears params.points
  let riskPoints := generateRiskCurves lifespan params.riskAlpha params.minLof cof
    params.cycleLengthYears params.threshold params.points
  { cost := costPoints
    risk := riskPoints
    totalCosts := calculateTotalCosts costPoints
    averageRisk := calculateAverageRisk riskPoints
    thresholdDollar := params.threshold * cof }

/-- What one invocation of the JavaScript entry point does, as the caller
observes it: it returns a result record, or raises an exception, or never
terminates. -/
inductive JsOutcome
  | ok (result : Curves)
  | throws
  | diverges

/-- The entry point as the caller sees it.  `generateDashboardCurves`
contains no validation and no explicit `throw`, but the JavaScript runtime
gives it exactly two non-returning paths, modelled by the two non-`ok`
outcomes:
* with `points ≥ 1`, `cycleLength = 0` and `lifespan > 0`, the Fix-in-Plan
  cycle loop of the first cost sample runs forever (`nCycles =
  Math.floor(lifespan / 0) = Infinity`), so the call never terminates — this
  is hit before the aggregator since the cost generator runs first;
* with `points = 0`, both curve arrays are empty and `calculateTotalCosts`
  evaluates `costPoints[-1].noFix`, a property read on `undefined`, which
  throws a `TypeError` (not an invalid-parameter error).
Every other parameter record returns a result normally (with `points = 1`
the coordinates are `NaN` from `0/0` in JavaScript, but a result record is
still returned; the embedding's total division renders those coordinates as
`0`). -/
noncomputable def simulateJs (params : DashboardParams) : JsOutcome :=
  if 0 < params.points ∧ params.cycleLengthYears = 0 ∧ 0 < params.lifespanYears then
    JsOutcome.diverges
  else if params.points = 0 then
    JsOutcome.throws
  else
    JsOutcome.ok (generateDashboardCurves params)

/-- The spec's reference scenario: lifespan 30, replacement cost 1 000 000,
riskAlpha 6, minLof 0.05, cycle 5, threshold 0.4, 500 points. -/
def scenParams : DashboardParams :=
  { lifespanYears := 30
    replacementCost := 1000000
    riskAlpha := 6
    minLof := 0.05
    cycleLengthYears := 5
    threshold := 0.4
    points := 500 }

/-! ## Structural helper lemmas -/

lemma length_generateCostCurves (L a rc cl : ℚ) (n : ℕ) :
    (generateCostCurves L a rc cl n).length = n := by
  simp [generateCostCurves]

lemma map_range_elem {β : Type} [Inhabited β] (f : ℕ → β) (n i : ℕ) (hi : i < n) :
    ((List.range n).map f)[i]! = f i := by
  have h : i < ((List.range n).map f).length := by simpa using hi
  rw [getElem!_pos ((List.range n).map f) i h]
  simp

lemma generateCostCurves_elem (L a rc cl : ℚ) (n i : ℕ) (hi : i < n) :
    (generateCostCurves L a rc cl n)[i]! = costPoint L rc cl n i := by
  unfold generateCostCurves
  exact map_range_elem _ n i hi

lemma length_generateRiskCurves (L α m cof cl θ : ℚ) (n : ℕ) :
    (generateRiskCurves L α m cof cl θ n).length = n := by
  simp [generateRiskCurves]

lemma generateRiskCurves_elem (L α m cof cl θ : ℚ) (n i : ℕ) (hi : i < n) :
    (generateRiskCurves L α m cof cl θ n)[i]! = riskPoint L α m cof cl θ (riskFailTimes L) n i := by
  unfold generateRiskCurves
  exact map_range_elem _ n i hi

lemma dashboard_cost (p : DashboardParams) :
    (generateDashboardCurves p).cost
      = generateCostCurves p.lifespanYears (p.riskAlpha * 0.8) p.replacementCost
          p.cycleLengthYears p.points := rfl

lemma dashboard_risk (p : DashboardParams) :
    (generateDashboardCurves p).risk
      = generateRiskCurves p.lifespanYears p.riskAlpha p.minLof p.replacementCost
          p.cycleLengthYears p.threshold p.points := rfl

lemma dashboard_totalCosts (p : DashboardParams) :
    (generateDashboardCurves p).totalCosts
      = calculateTotalCosts (generateCostCurves p.lifespanYears (p.riskAlpha * 0.8)
          p.replacementCost p.cycleLengthYears p.points) := rfl

lemma dashboard_averageRisk (p : DashboardParams) :
    (generateDashboardCurves p).averageRisk
      = calculateAverageRisk (generateRiskCurves p.lifespanYears p.riskAlpha p.minLof
          p.replacementCost p.cycleLengthYears p.threshold p.points) := rfl

/-! ## Claim C1: the two generators' failure schedules -/

lemma maxFailures_eq : maxFailures = 5 := by
  unfold maxFailures
  rw [show (2 + 3 * (1 : ℚ) ^ 2 : ℚ) = ((5 : ℤ) : ℚ) by norm_num, Int.floor_intCast]
  decide

lemma m32raw_42_0 : m32raw 42 0 = 2581720956 := by decide

lemma m32raw_42_1 : m32raw 42 1 = 1925393290 := by decide

lemma m32raw_42_2 : m32raw 42 2 = 3661312704 := by decide

lemma m32raw_42_3 : m32raw 42 3 = 2876485805 := by decide

lemma m32raw_42_4 : m32raw 42 4 = 750819978 := by decide

lemma m32raw_42_6 : m32raw 42 6 = 1173505300 := by decide

lemma m32raw_42_8 : m32raw 42 8 = 3717185310 := by decide

lemma range_five : List.range 5 = [0, 1, 2, 3, 4] := by decide

lemma costFailTimes_eval :
    costFailTimes 30 =
      [72495350289 / 5368709120, 6193274853 / 335544320, 221453256459 / 10737418240,
        134860276491 / 5368709120, 30] := by
  rw [costFailTimes, maxFailures_eq, range_five]
  simp only [List.map_cons, List.map_nil, costFailTime, maxFailures_eq, failPosition, rngFrac, rngSeed]
  norm_num [m32raw_42_0, m32raw_42_2, m32raw_42_4, m32raw_42_6, m32raw_42_8, min_def, max_def]

lemma riskFailTimesUnsorted_eval :
    riskFailTimesUnsorted 30 =
      [72495350289 / 5368709120, 185165399691 / 10737418240, 7602560997 / 335544320,
        564985813539 / 21474836480, 62329513935 / 2147483648] := by
  rw [riskFailTimesUnsorted, maxFailures_eq, range_five]
  simp only [List.map_cons, List.map_nil, riskFailTime, maxFailures_eq, failPosition, rngFrac, rngSeed]
  norm_num [m32raw_42_0, m32raw_42_1, m32raw_42_2, m32raw_42_3, m32raw_42_4, min_def, max_def]

lemma riskFailTimes_eval :
    riskFailTimes 30 =
      [72495350289 / 5368709120, 185165399691 / 10737418240, 7602560997 / 335544320,
        564985813539 / 21474836480, 62329513935 / 2147483648] := by
  rw [riskFailTimes, riskFailTimesUnsorted_eval]
  rw [List.Sorted.insertionSort_eq]
  simp only [List.sorted_cons, List.mem_cons, List.not_mem_nil]
  norm_num

/-- C1: the claim's reference scenario refuted — the failure schedule of the
cost generator and the (sorted, and even unsorted) failure schedule of the
risk generator differ at lifespan 30, although both reseed `mulberry32` with
42: the cost generator consumes two draws per failure (offset, repair
fraction), the risk generator only one, so from the second failure on the
offsets come from different positions of the same sequence. -/
theorem C1_failure_schedules_differ :
    costFailTimes 30 ≠ riskFailTimes 30 ∧ costFailTimes 30 ≠ riskFailTimesUnsorted 30 := by
  rw [costFailTimes_eval, riskFailTimes_eval, riskFailTimesUnsorted_eval]
  refine ⟨fun h => ?_, fun h => ?_⟩
  all_goals
    injection h with h0 htail
    injection htail with h1 hrest
    exact absurd h1 (by norm_num)

/-- C1 (amended): both generators compute the first failure time from the
first draw of a fresh seed-42 sequence, so the first failure times agree for
every lifespan; but the remaining failure times use different draws of the
sequence, and at the scenario (lifespan 30, five failures each) the two
schedules are not equal. -/
theorem C1_amended_first_failure_matches_rest_differ :
    (∀ lifespan : ℚ, costFailTime lifespan 0 = riskFailTime lifespan 0)
    ∧ (costFailTimes 30).length = 5
    ∧ (riskFailTimes 30).length = 5
    ∧ costFailTimes 30 ≠ riskFailTimes 30 := by
  refine ⟨fun lifespan => rfl, ?_, ?_, ?_⟩
  · rw [costFailTimes_eval]
    rfl
  · rw [riskFailTimes_eval]
    rfl
  · rw [costFailTimes_eval, riskFailTimes_eval]
    intro h
    injection h with h0 htail
    injection htail with h1 hrest
    exact absurd h1 (by norm_num)

/-! ## Claim C2: no fail-fast validation in the entry point -/

/-- A parameter record with `points = 1 < 2` (invalid per the spec). -/
def invalidParams : DashboardParams :=
  { lifespanYears := 30
    replacementCost := 1000000
    riskAlpha := 6
    minLof := 0.05
    cycleLengthYears := 5
    threshold := 0.4
    points := 1 }

/-- C2: refuted at `points = 1` (with the scenario's valid remaining
parameters) — the entry point performs no parameter validation and returns a
result instead of failing fast with an invalid-parameter error. -/
theorem C2_no_fail_fast :
    invalidParams.points < 2
    ∧ simulateJs invalidParams = JsOutcome.ok (generateDashboardCurves invalidParams) := by
  have h1 : ¬(0 < invalidParams.points ∧ invalidParams.cycleLengthYears = 0
      ∧ 0 < invalidParams.lifespanYears) := by
    norm_num [invalidParams]
  have h2 : invalidParams.points ≠ 0 := by decide
  exact ⟨by decide, by rw [simulateJs, if_neg h1, if_neg h2]⟩

/-- C2 (amended): the entry point never raises an invalid-parameter error.
At `points = 1` (sample count < 2) with nonzero cycle length it returns a
result whose two curve arrays have one point each, rather than an error; it
likewise returns a result for non-positive lifespan and for negative cycle
length.  The remaining invalid inputs of the claim fail, but not with an
invalid-parameter error: `points = 0` throws a `TypeError` when the
aggregator indexes the empty cost array, and cycle length 0 with positive
lifespan and at least one sample never terminates. -/
theorem C2_amended_error_behavior :
    (∀ p : DashboardParams, p.points = 1 → p.cycleLengthYears ≠ 0 →
      simulateJs p = JsOutcome.ok (generateDashboardCurves p)
      ∧ (generateDashboardCurves p).cost.length = 1
      ∧ (generateDashboardCurves p).risk.length = 1)
    ∧ (∀ p : DashboardParams, 0 < p.points → p.lifespanYears ≤ 0 →
      simulateJs p = JsOutcome.ok (generateDashboardCurves p))
    ∧ (∀ p : DashboardParams, 0 < p.points → p.cycleLengthYears < 0 →
      simulateJs p = JsOutcome.ok (generateDashboardCurves p))
    ∧ (∀ p : DashboardParams, p.points = 0 → simulateJs p = JsOutcome.throws)
    ∧ (∀ p : DashboardParams, 0 < p.points → p.cycleLengthYears = 0 →
      0 < p.lifespanYears → simulateJs p = JsOutcome.diverges) := by
  refine ⟨?_, ?_, ?_, ?_, ?_⟩
  · intro p hp hcl
    refine ⟨?_, ?_, ?_⟩
    · rw [simulateJs, if_neg (fun h => hcl h.2.1), if_neg (by omega)]
    · rw [dashboard_cost, length_generateCostCurves, hp]
    · rw [dashboard_risk, length_generateRiskCurves, hp]
  · intro p hp hL
    rw [simulateJs, if_neg (fun h => absurd h.2.2 (not_lt.mpr hL)), if_neg (by omega)]
  · intro p hp hcl
    rw [simulateJs, if_neg (fun h => absurd h.2.1 (ne_of_lt hcl)), if_neg (by omega)]
  · intro p hp
    rw [simulateJs, if_neg (fun h => by omega), if_pos hp]
  · intro p hp hcl hL
    rw [simulateJs, if_pos ⟨hp, hcl, hL⟩]

/-! ## Claim C4: determinism of the entry point -/

/-- C4: two invocations of the simulation with identical parameter records
yield identical cost curves, risk curves, total-cost and average-risk maps
and threshold dollars: each invocation rebuilds its generators from the
constant seed, so the embedding of one invocation is a pure function of the
parameter record alone. -/
theorem C4_determinism (p q : DashboardParams) (h : p = q) :
    (generateDashboardCurves p).cost = (generateDashboardCurves q).cost
    ∧ (generateDashboardCurves p).risk = (generateDashboardCurves q).risk
    ∧ (generateDashboardCurves p).totalCosts = (generateDashboardCurves q).totalCosts
    ∧ (generateDashboardCurves p).averageRisk = (generateDashboardCurves q).averageRisk
    ∧ (generateDashboardCurves p).thresholdDollar = (generateDashboardCurves q).thresholdDollar := by
  subst h
  exact ⟨rfl, rfl, rfl, rfl, rfl⟩

/-- C4 witness: the two calls at the reference scenario coincide. -/
theorem C4_determinism_witness :
    (generateDashboardCurves scenParams).cost = (generateDashboardCurves scenParams).cost
    ∧ (generateDashboardCurves scenParams).risk = (generateDashboardCurves scenParams).risk
    ∧ (generateDashboardCurves scenParams).totalCosts = (generateDashboardCurves scenParams).totalCosts
    ∧ (generateDashboardCurves scenParams).averageRisk = (generateDashboardCurves scenParams).averageRisk
    ∧ (generateDashboardCurves scenParams).thresholdDollar
        = (generateDashboardCurves scenParams).thresholdDollar :=
  C4_determinism scenParams scenParams rfl

/-! ## Claim C10: the cost generator's steepness parameter is a no-op -/

/-- C10: the `_costCurveAlpha` parameter of the cost generator has no effect:
any two values give identical output; consequently the cost curve set and the
total-cost map of the simulation do not depend on `riskAlpha`. -/
theorem C10_steepness_noop :
    (∀ (L a b rc cl : ℚ) (n : ℕ),
      generateCostCurves L a rc cl n = generateCostCurves L b rc cl n)
    ∧ (∀ (p : DashboardParams) (a b : ℚ),
      (generateDashboardCurves { p with riskAlpha := a }).cost
        = (generateDashboardCurves { p with riskAlpha := b }).cost
      ∧ (generateDashboardCurves { p with riskAlpha := a }).totalCosts
        = (generateDashboardCurves { p with riskAlpha := b }).totalCosts) :=
  ⟨fun _ _ _ _ _ _ => rfl, fun _ _ _ => ⟨rfl, rfl⟩⟩

/-! ## Claim C7: the Fix-on-Risk sawtooth records the post-reset value -/

lemma sawtoothNext_lt (α m θ : ℚ) (points : ℕ) (cur : ℚ) (i : ℕ) (h : m * 1.5 < θ) :
    sawtoothNext α m θ points cur i < θ := by
  simp only [sawtoothNext]
  split
  · exact h
  · next hn => exact lt_of_not_le hn

lemma fixOnRiskLof_lt (α m θ : ℚ) (points i : ℕ) (h : m * 1.5 < θ) :
    fixOnRiskLof α m θ points i < θ := by
  cases i with
  | zero => exact sawtoothNext_lt α m θ points (m * 1.5) 0 h
  | succ j => exact sawtoothNext_lt α m θ points (fixOnRiskLof α m θ points j) (j + 1) h

/-- C7: in the risk generator the Fix-on-Risk threshold comparison and reset
happen before the sample is recorded: the recorded value equals the
post-reset sawtooth state (`fixOnRiskLof`) times the consequence, and
whenever `minLof * 1.5 < threshold` every recorded Fix-on-Risk risk value is
strictly below `threshold * consequence`. -/
theorem C7_sawtooth_post_reset (L α m cof cl θ : ℚ) (pts i : ℕ)
    (hreset : m * 1.5 < θ) (hcof : 0 < cof) (hi : i < pts) :
    ((generateRiskCurves L α m cof cl θ pts)[i]!).fixOnRisk
      = ((fixOnRiskLof α m θ pts i : ℚ) : ℝ) * (cof : ℝ)
    ∧ ((generateRiskCurves L α m cof cl θ pts)[i]!).fixOnRisk < (θ : ℝ) * (cof : ℝ) := by
  rw [generateRiskCurves_elem L α m cof cl θ pts i hi]
  refine ⟨rfl, ?_⟩
  have hlt : fixOnRiskLof α m θ pts i < θ := fixOnRiskLof_lt α m θ pts i hreset
  have hltR : ((fixOnRiskLof α m θ pts i : ℚ) : ℝ) < (θ : ℝ) := by exact_mod_cast hlt
  have hcofR : (0 : ℝ) < (cof : ℝ) := by exact_mod_cast hcof
  have : ((fixOnRiskLof α m θ pts i : ℚ) : ℝ) * (cof : ℝ) < (θ : ℝ) * (cof : ℝ) :=
    mul_lt_mul_of_pos_right hltR hcofR
  exact this

/-- C7 witness: the sawtooth property at the reference scenario's first sample. -/
theorem C7_sawtooth_post_reset_witness :
    ((generateRiskCurves 30 6 0.05 1000000 5 0.4 500)[0]!).fixOnRisk
      = ((fixOnRiskLof 6 0.05 0.4 500 0 : ℚ) : ℝ) * ((1000000 : ℚ) : ℝ)
    ∧ ((generateRiskCurves 30 6 0.05 1000000 5 0.4 500)[0]!).fixOnRisk
        < ((0.4 : ℚ) : ℝ) * ((1000000 : ℚ) : ℝ) :=
  C7_sawtooth_post_reset 30 6 0.05 1000000 5 0.4 500 0 (by norm_num) (by norm_num) (by decide)

/-! ## Projection lemmas for curve points -/

lemma costPoint_x (L rc cl : ℚ) (n i : ℕ) :
    (costPoint L rc cl n i).x = sampleX n i := rfl

lemma costPoint_t (L rc cl : ℚ) (n i : ℕ) :
    (costPoint L rc cl n i).t = sampleT L n i := rfl

lemma costPoint_noFix (L rc cl : ℚ) (n i : ℕ) :
    (costPoint L rc cl n i).noFix
      = 0.05 * rc * sampleT L n i / L
        + (if 0.9 * L ≤ sampleT L n i then rc else 0) := rfl

lemma riskPoint_x (L α m cof cl θ : ℚ) (fl : List ℚ) (n i : ℕ) :
    (riskPoint L α m cof cl θ fl n i).x = ((sampleX n i : ℚ) : ℝ) := rfl

lemma riskPoint_t (L α m cof cl θ : ℚ) (fl : List ℚ) (n i : ℕ) :
    (riskPoint L α m cof cl θ fl n i).t = ((sampleT L n i : ℚ) : ℝ) := rfl

lemma riskPoint_noFix (L α m cof cl θ : ℚ) (fl : List ℚ) (n i : ℕ) :
    (riskPoint L α m cof cl θ fl n i).noFix
      = calculateLof (sampleX n i) α m * (cof : ℝ) := rfl

lemma riskPoint_fixOnRisk (L α m cof cl θ : ℚ) (fl : List ℚ) (n i : ℕ) :
    (riskPoint L α m cof cl θ fl n i).fixOnRisk
      = ((fixOnRiskLof α m θ n i : ℚ) : ℝ) * (cof : ℝ) := rfl

/-! ## Sample-time arithmetic -/

lemma sampleX_zero (points : ℕ) : sampleX points 0 = 0 := by
  simp [sampleX]

lemma points_sub_one_pos {points : ℕ} (h2 : 2 ≤ points) : (0 : ℚ) < (points : ℚ) - 1 := by
  have : (2 : ℚ) ≤ (points : ℚ) := by exact_mod_cast h2
  linarith

lemma sampleX_last (points : ℕ) (h2 : 2 ≤ points) : sampleX points (points - 1) = 1 := by
  rw [sampleX]
  have h1 : (1 : ℕ) ≤ points := le_trans one_le_two h2
  rw [Nat.cast_sub h1]
  exact div_self (ne_of_gt (points_sub_one_pos h2))

lemma sampleX_nonneg (points i : ℕ) (h2 : 2 ≤ points) : 0 ≤ sampleX points i := by
  exact div_nonneg (Nat.cast_nonneg i) (le_of_lt (points_sub_one_pos h2))

lemma sampleX_le_one (points i : ℕ) (h2 : 2 ≤ points) (hi : i < points) :
    sampleX points i ≤ 1 := by
  rw [sampleX, div_le_one (points_sub_one_pos h2)]
  have : (i : ℚ) + 1 ≤ (points : ℚ) := by exact_mod_cast hi
  linarith

lemma sampleX_strict_mono (points i j : ℕ) (h2 : 2 ≤ points) (hij : i < j) :
    sampleX points i < sampleX points j := by
  rw [sampleX, sampleX]
  have hij' : (i : ℚ) < (j : ℚ) := by exact_mod_cast hij
  exact div_lt_div_of_pos_right hij' (points_sub_one_pos h2)

lemma sampleT_nonneg (L : ℚ) (points i : ℕ) (hL : 0 ≤ L) (h2 : 2 ≤ points) :
    0 ≤ sampleT L points i :=
  mul_nonneg (sampleX_nonneg points i h2) hL

lemma sampleT_strict_mono (L : ℚ) (points i j : ℕ) (hL : 0 < L) (h2 : 2 ≤ points)
    (hij : i < j) : sampleT L points i < sampleT L points j :=
  mul_lt_mul_of_pos_right (sampleX_strict_mono points i j h2 hij) hL

/-! ## Claim C8: curve length, sample spacing, time span -/

/-- C8: for sample count ≥ 2 and positive lifespan, both curve arrays have
length exactly `points`; sample `i` carries normalized time `i/(points-1)`
and absolute time `i/(points-1) * lifespan`; the first normalized time is 0,
the last is 1, and absolute times strictly increase, on both curve sets. -/
theorem C8_curve_length_and_times (p : DashboardParams) (h2 : 2 ≤ p.points)
    (hL : 0 < p.lifespanYears) :
    (generateDashboardCurves p).cost.length = p.points
    ∧ (generateDashboardCurves p).risk.length = p.points
    ∧ (∀ i, i < p.points →
        ((generateDashboardCurves p).cost[i]!).x = (i : ℚ) / ((p.points : ℚ) - 1)
        ∧ ((generateDashboardCurves p).cost[i]!).t
            = (i : ℚ) / ((p.points : ℚ) - 1) * p.lifespanYears
        ∧ ((generateDashboardCurves p).risk[i]!).x
            = (((i : ℚ) / ((p.points : ℚ) - 1) : ℚ) : ℝ)
        ∧ ((generateDashboardCurves p).risk[i]!).t
            = (((i : ℚ) / ((p.points : ℚ) - 1) * p.lifespanYears : ℚ) : ℝ))
    ∧ ((generateDashboardCurves p).cost[0]!).x = 0
    ∧ ((generateDashboardCurves p).cost[p.points - 1]!).x = 1
    ∧ ((generateDashboardCurves p).risk[0]!).x = 0
    ∧ ((generateDashboardCurves p).risk[p.points - 1]!).x = 1
    ∧ (∀ i j, i < j → j < p.points →
        ((generateDashboardCurves p).cost[i]!).t < ((generateDashboardCurves p).cost[j]!).t
        ∧ ((generateDashboardCurves p).risk[i]!).t
            < ((generateDashboardCurves p).risk[j]!).t) := by
  have h0 : 0 < p.points := lt_of_lt_of_le two_pos h2
  have hlast : p.points - 1 < p.points := Nat.sub_lt h0 one_pos
  refine ⟨?_, ?_, ?_, ?_, ?_, ?_, ?_, ?_⟩
  · rw [dashboard_cost, length_generateCostCurves]
  · rw [dashboard_risk, length_generateRiskCurves]
  · intro i hi
    rw [dashboard_cost, dashboard_risk, generateCostCurves_elem _ _ _ _ _ i hi,
      generateRiskCurves_elem _ _ _ _ _ _ _ i hi, costPoint_x, costPoint_t,
      riskPoint_x, riskPoint_t]
    exact ⟨rfl, rfl, rfl, rfl⟩
  · rw [dashboard_cost, generateCostCurves_elem _ _ _ _ _ 0 h0, costPoint_x, sampleX_zero]
  · rw [dashboard_cost, generateCostCurves_elem _ _ _ _ _ _ hlast, costPoint_x,
      sampleX_last _ h2]
  · rw [dashboard_risk, generateRiskCurves_elem _ _ _ _ _ _ _ 0 h0, riskPoint_x,
      sampleX_zero]
    exact Rat.cast_zero
  · rw [dashboard_risk, generateRiskCurves_elem _ _ _ _ _ _ _ _ hlast, riskPoint_x,
      sampleX_last _ h2]
    exact Rat.cast_one
  · intro i j hij hj
    have hi : i < p.points := lt_trans hij hj
    rw [dashboard_cost, dashboard_risk, generateCostCurves_elem _ _ _ _ _ i hi,
      generateCostCurves_elem _ _ _ _ _ j hj, generateRiskCurves_elem _ _ _ _ _ _ _ i hi,
      generateRiskCurves_elem _ _ _ _ _ _ _ j hj, costPoint_t, costPoint_t,
      riskPoint_t, riskPoint_t]
    have hmono := sampleT_strict_mono p.lifespanYears p.points i j hL h2 hij
    exact ⟨hmono, by exact_mod_cast hmono⟩

/-- C8 witness: the length/spacing/span property at the reference scenario. -/
theorem C8_curve_length_and_times_witness :
    (generateDashboardCurves scenParams).cost.length = scenParams.points
    ∧ (generateDashboardCurves scenParams).risk.length = scenParams.points
    ∧ (∀ i, i < scenParams.points →
        ((generateDashboardCurves scenParams).cost[i]!).x
            = (i : ℚ) / ((scenParams.points : ℚ) - 1)
        ∧ ((generateDashboardCurves scenParams).cost[i]!).t
            = (i : ℚ) / ((scenParams.points : ℚ) - 1) * scenParams.lifespanYears
        ∧ ((generateDashboardCurves scenParams).risk[i]!).x
            = (((i : ℚ) / ((scenParams.points : ℚ) - 1) : ℚ) : ℝ)
        ∧ ((generateDashboardCurves scenParams).risk[i]!).t
            = (((i : ℚ) / ((scenParams.points : ℚ) - 1) * scenParams.lifespanYears : ℚ) : ℝ))
    ∧ ((generateDashboardCurves scenParams).cost[0]!).x = 0
    ∧ ((generateDashboardCurves scenParams).cost[scenParams.points - 1]!).x = 1
    ∧ ((generateDashboardCurves scenParams).risk[0]!).x = 0
    ∧ ((generateDashboardCurves scenParams).risk[scenParams.points - 1]!).x = 1
    ∧ (∀ i j, i < j → j < scenParams.points →
        ((generateDashboardCurves scenParams).cost[i]!).t
            < ((generateDashboardCurves scenParams).cost[j]!).t
        ∧ ((generateDashboardCurves scenParams).risk[i]!).t
            < ((generateDashboardCurves scenParams).risk[j]!).t) :=
  C8_curve_length_and_times scenParams (by decide) (by norm_num [scenParams])

/-! ## Claim C6: bounds of the probability-of-failure model -/

lemma logisticCurve_pos (x a mid : ℚ) : 0 < logisticCurve x a mid := by
  rw [logisticCurve]
  positivity

lemma logisticCurve_lt_one (x a mid : ℚ) : logisticCurve x a mid < 1 := by
  rw [logisticCurve]
  have he := Real.exp_pos (-(a : ℝ) * ((x : ℝ) - (mid : ℝ)))
  rw [div_lt_one (by linarith)]
  linarith

lemma calculateLof_ge (x a m : ℚ) (hm1 : m < 1) : (m : ℝ) ≤ calculateLof x a m := by
  rw [calculateLof]
  have hm1R : (m : ℝ) < 1 := by exact_mod_cast hm1
  nlinarith [logisticCurve_pos x a 0.7]

lemma calculateLof_lt_one (x a m : ℚ) (hm1 : m < 1) : calculateLof x a m < 1 := by
  rw [calculateLof]
  have hm1R : (m : ℝ) < 1 := by exact_mod_cast hm1
  nlinarith [logisticCurve_lt_one x a 0.7]

/-- C6: `calculateLof(ageNormalized, steepness, floor)` lies in `[floor, 1)`
on the claim's domain, and consequently the No-Fix risk value divided by the
consequence of failure is the recovered LOF and lies in `[minLof, 1)` at
every sample of the simulation output. -/
theorem C6_lof_bounds (x a m : ℚ) (p : DashboardParams) (i : ℕ)
    (hx0 : 0 ≤ x) (hx1 : x ≤ 1) (ha : 0 < a) (hm0 : 0 ≤ m) (hm1 : m < 1)
    (hpm0 : 0 ≤ p.minLof) (hpm1 : p.minLof < 1) (hcof : 0 < p.replacementCost)
    (hi : i < p.points) :
    ((m : ℝ) ≤ calculateLof x a m ∧ calculateLof x a m < 1)
    ∧ ((p.minLof : ℝ)
          ≤ ((generateDashboardCurves p).risk[i]!).noFix / (p.replacementCost : ℝ)
       ∧ ((generateDashboardCurves p).risk[i]!).noFix / (p.replacementCost : ℝ) < 1) := by
  have hcofR : (0 : ℝ) < (p.replacementCost : ℝ) := by exact_mod_cast hcof
  refine ⟨⟨calculateLof_ge x a m hm1, calculateLof_lt_one x a m hm1⟩, ?_⟩
  rw [dashboard_risk, generateRiskCurves_elem _ _ _ _ _ _ _ i hi, riskPoint_noFix,
    mul_div_cancel_right₀ _ (ne_of_gt hcofR)]
  exact ⟨calculateLof_ge _ _ _ hpm1, calculateLof_lt_one _ _ _ hpm1⟩

/-- C6 witness: the LOF bounds at `ageNormalized = 1/2`, steepness 6,
floor 0.05, and the scenario's first sample. -/
theorem C6_lof_bounds_witness :
    (((1 : ℚ) / 20 : ℚ) ≤ calculateLof (1 / 2) 6 (1 / 20)
        ∧ calculateLof (1 / 2) 6 (1 / 20) < 1)
    ∧ ((scenParams.minLof : ℝ)
          ≤ ((generateDashboardCurves scenParams).risk[0]!).noFix
              / (scenParams.replacementCost : ℝ)
       ∧ ((generateDashboardCurves scenParams).risk[0]!).noFix
              / (scenParams.replacementCost : ℝ) < 1) := by
  have h := C6_lof_bounds (1 / 2) 6 (1 / 20) scenParams 0 (by norm_num) (by norm_num)
    (by norm_num) (by norm_num) (by norm_num) (by norm_num [scenParams])
    (by norm_num [scenParams]) (by norm_num [scenParams]) (by decide)
  exact ⟨⟨by exact_mod_cast h.1.1, h.1.2⟩, h.2⟩

/-! ## Claim C9: aggregator summaries -/

lemma foldl_add_eq {β : Type} (g : β → ℝ) (c : ℝ) (l : List β) :
    l.foldl (fun acc q => acc + g q) c = c + (l.map g).sum := by
  induction l generalizing c with
  | nil => simp
  | cons a as ih => simp [ih, add_assoc]

/-- C9: the reported total cost of each strategy is that strategy's value at
the last cost-curve point, the reported average risk is the arithmetic mean
of that strategy's risk-curve values, and the threshold-in-dollars scalar is
exactly `threshold * replacementCost`. -/
theorem C9_summaries (p : DashboardParams) (h2 : 2 ≤ p.points) (k : StrategyKey) :
    (generateDashboardCurves p).totalCosts k
      = stratVal k ((generateDashboardCurves p).cost[p.points - 1]!)
    ∧ (generateDashboardCurves p).averageRisk k
      = ((generateDashboardCurves p).risk.map (stratVal k)).sum / (p.points : ℝ)
    ∧ (generateDashboardCurves p).thresholdDollar = p.threshold * p.replacementCost := by
  refine ⟨?_, ?_, rfl⟩
  · rw [dashboard_totalCosts, dashboard_cost]
    simp only [calculateTotalCosts, length_generateCostCurves]
  · rw [dashboard_averageRisk, dashboard_risk]
    simp only [calculateAverageRisk]
    rw [foldl_add_eq, zero_add, length_generateRiskCurves]

/-- C9 witness: the summary property at the reference scenario for No-Fix. -/
theorem C9_summaries_witness :
    (generateDashboardCurves scenParams).totalCosts StrategyKey.noFix
      = stratVal StrategyKey.noFix
          ((generateDashboardCurves scenParams).cost[scenParams.points - 1]!)
    ∧ (generateDashboardCurves scenParams).averageRisk StrategyKey.noFix
      = ((generateDashboardCurves scenParams).risk.map (stratVal StrategyKey.noFix)).sum
          / (scenParams.points : ℝ)
    ∧ (generateDashboardCurves scenParams).thresholdDollar
      = scenParams.threshold * scenParams.replacementCost :=
  C9_summaries scenParams (by decide) StrategyKey.noFix

/-! ## Claim C5: the No-Fix catastrophic step at the scenario -/

lemma scen_cost_elem (i : ℕ) (hi : i < 500) :
    (generateDashboardCurves scenParams).cost[i]! = costPoint 30 1000000 5 500 i := by
  rw [dashboard_cost]
  exact generateCostCurves_elem _ _ _ _ _ i hi

lemma scen_t_lt_27 (i : ℕ) (hi : i < 450) : sampleT 30 500 i < 27 := by
  rw [sampleT, sampleX]
  have h449 : (i : ℚ) ≤ 449 := by exact_mod_cast Nat.lt_succ_iff.mp hi
  have h499 : ((500 : ℕ) : ℚ) - 1 = 499 := by norm_num
  rw [h499, div_mul_eq_mul_div, div_lt_iff (by norm_num : (0 : ℚ) < 499)]
  linarith

lemma scen_t_450 : 27 ≤ sampleT 30 500 450 := by
  rw [sampleT, sampleX]
  have h499 : ((500 : ℕ) : ℚ) - 1 = 499 := by norm_num
  rw [h499, div_mul_eq_mul_div, le_div_iff (by norm_num : (0 : ℚ) < 499)]
  norm_num

/-- C5: at the scenario (lifespan 30, replacement cost 1 000 000, 500
samples), every sample before index 450 has `t < 27` and a No-Fix value equal
to the linear baseline alone; sample 450 is the first with `t ≥ 27` and its
No-Fix value is the baseline plus the full replacement cost, so the curve
jumps by exactly 1 000 000 (plus the baseline increment) between samples 449
and 450, and the step is never included before that point. -/
theorem C5_nofix_step :
    (∀ i, i < 450 → ((generateDashboardCurves scenParams).cost[i]!).t < 27)
    ∧ 27 ≤ ((generateDashboardCurves scenParams).cost[450]!).t
    ∧ (∀ i, i < 450 →
        ((generateDashboardCurves scenParams).cost[i]!).noFix
          = (0.05 : ℚ) * 1000000 * ((generateDashboardCurves scenParams).cost[i]!).t / 30)
    ∧ ((generateDashboardCurves scenParams).cost[450]!).noFix
        = (0.05 : ℚ) * 1000000 * ((generateDashboardCurves scenParams).cost[450]!).t / 30
          + 1000000
    ∧ ((generateDashboardCurves scenParams).cost[450]!).noFix
          - ((generateDashboardCurves scenParams).cost[449]!).noFix
        = 1000000
          + (0.05 : ℚ) * 1000000
              * (((generateDashboardCurves scenParams).cost[450]!).t
                  - ((generateDashboardCurves scenParams).cost[449]!).t) / 30 := by
  have h27 : (0.9 * 30 : ℚ) = 27 := by norm_num
  have hbase : ∀ i, i < 450 →
      ((generateDashboardCurves scenParams).cost[i]!).noFix
        = (0.05 : ℚ) * 1000000 * ((generateDashboardCurves scenParams).cost[i]!).t / 30 := by
    intro i hi
    rw [scen_cost_elem i (lt_trans hi (by norm_num)), costPoint_noFix, costPoint_t, h27,
      if_neg (not_le.mpr (scen_t_lt_27 i hi))]
    ring
  have h450 :
      ((generateDashboardCurves scenParams).cost[450]!).noFix
        = (0.05 : ℚ) * 1000000 * ((generateDashboardCurves scenParams).cost[450]!).t / 30
          + 1000000 := by
    rw [scen_cost_elem 450 (by norm_num), costPoint_noFix, costPoint_t, h27,
      if_pos scen_t_450]
    norm_num
  refine ⟨?_, ?_, hbase, h450, ?_⟩
  · intro i hi
    rw [scen_cost_elem i (lt_trans hi (by norm_num)), costPoint_t]
    exact scen_t_lt_27 i hi
  · rw [scen_cost_elem 450 (by norm_num), costPoint_t]
    exact scen_t_450
  · rw [h450, hbase 449 (by norm_num)]
    push_cast
    ring

/-! ## Claim C3: non-negativity of curve values -/

lemma riskPoint_fixInPlan (L α m cof cl θ : ℚ) (fl : List ℚ) (n i : ℕ) :
    (riskPoint L α m cof cl θ fl n i).fixInPlan
      = ((m : ℝ)
          + (((m + (0.3 - m) * (1 + 0.5 * sampleX n i) : ℚ) : ℝ) - (m : ℝ))
            * ((1 - Real.cos (2 * Real.pi * ((jsMod (sampleT L n i) cl / cl : ℚ) : ℝ))) / 2))
        * (cof : ℝ) := rfl

/-- A parameter record inside the claim's stated domain (`minLof = 0.95 ∈
[0,1)`) on which a risk value is negative. -/
def cexParams : DashboardParams :=
  { lifespanYears := 1
    replacementCost := 1
    riskAlpha := 1
    minLof := 19 / 20
    cycleLengthYears := 2
    threshold := 1
    points := 3 }

/-- C3: refuted — with `minLof = 0.95` (inside the stated domain `[0,1)`),
lifespan 1, cycle length 2 and 3 samples, the last sample's Fix-in-Plan risk
value is negative: the within-cycle oscillation peak
`minLof + (0.3 - minLof)*(1 + 0.5x)` drops below zero once `minLof > 0.9`,
and the wave hits it fully at `cyclePosition = 1/2`. -/
theorem C3_negative_risk_value :
    (0 < cexParams.lifespanYears ∧ 0 < cexParams.replacementCost
      ∧ 0 < cexParams.riskAlpha ∧ 0 ≤ cexParams.minLof ∧ cexParams.minLof < 1
      ∧ 0 < cexParams.cycleLengthYears ∧ 0 ≤ cexParams.threshold
      ∧ cexParams.threshold ≤ 1 ∧ 2 ≤ cexParams.points)
    ∧ ((generateDashboardCurves cexParams).risk[2]!).fixInPlan < 0 := by
  constructor
  · refine ⟨by norm_num [cexParams], by norm_num [cexParams], by norm_num [cexParams],
      by norm_num [cexParams], by norm_num [cexParams], by norm_num [cexParams],
      by norm_num [cexParams], by norm_num [cexParams], by norm_num [cexParams]⟩
  rw [dashboard_risk, generateRiskCurves_elem _ _ _ _ _ _ _ 2 (by norm_num [cexParams]),
    riskPoint_fixInPlan]
  have hx : sampleX cexParams.points 2 = 1 := by
    norm_num [sampleX, cexParams]
  have ht : sampleT cexParams.lifespanYears cexParams.points 2 = 1 := by
    norm_num [sampleT, sampleX, cexParams]
  have hfl : ⌊(1 : ℚ) / 2⌋ = 0 := by
    rw [Int.floor_eq_zero_iff]
    constructor <;> norm_num
  have hmod : jsMod (1 : ℚ) 2 = 1 := by
    rw [jsMod, jsTrunc, if_pos (by norm_num : (0 : ℚ) ≤ 1 / 2), hfl]
    norm_num
  rw [ht, hx]
  simp only [cexParams]
  rw [hmod]
  have hcp : (((1 : ℚ) / 2 : ℚ) : ℝ) = 1 / 2 := by push_cast; ring
  have harg : 2 * Real.pi * ((1 : ℝ) / 2) = Real.pi := by ring
  rw [show ((1 : ℚ) / 2 : ℚ) = (1 : ℚ) / 2 from rfl]
  rw [hcp, harg, Real.cos_pi]
  norm_num [cexParams]

lemma rngFrac_nonneg (seed n : ℕ) : 0 ≤ rngFrac seed n := by
  rw [rngFrac]
  positivity

lemma costFailCost_nonneg (rc : ℚ) (hrc : 0 ≤ rc) (i : ℕ) : 0 ≤ costFailCost rc i := by
  rw [costFailCost]
  have h := rngFrac_nonneg rngSeed (2 * i + 1)
  have h1 : (0 : ℚ) ≤ 0.3 + rngFrac rngSeed (2 * i + 1) * 0.2 := by nlinarith
  exact mul_nonneg h1 hrc

lemma costPoint_fixInPlan (L rc cl : ℚ) (n i : ℕ) :
    (costPoint L rc cl n i).fixInPlan
      = 0.02 * rc * sampleT L n i / L
        + ((List.range (Int.toNat ⌊L / cl⌋)).map fun c : ℕ =>
            if ((c : ℚ) + 1) * cl ≤ sampleT L n i then 0.15 * rc else 0).sum := rfl

lemma costPoint_fixOnFail (L rc cl : ℚ) (n i : ℕ) :
    (costPoint L rc cl n i).fixOnFail
      = 0.01 * rc * sampleT L n i / L
        + ((List.range maxFailures).map fun j =>
            if costFailTime L j ≤ sampleT L n i then costFailCost rc j else 0).sum := rfl

lemma costPoint_fixOnRisk (L rc cl : ℚ) (n i : ℕ) :
    (costPoint L rc cl n i).fixOnRisk
      = 0.02 * rc * sampleT L n i / L
        + ((List.range 4).map fun k =>
            if interventionTime L k ≤ sampleT L n i then 0.2 * rc else 0).sum := rfl

lemma costPoint_nonneg (L rc cl : ℚ) (n i : ℕ) (hL : 0 < L) (hrc : 0 < rc) (h2 : 2 ≤ n) :
    0 ≤ (costPoint L rc cl n i).noFix ∧ 0 ≤ (costPoint L rc cl n i).fixInPlan
    ∧ 0 ≤ (costPoint L rc cl n i).fixOnFail ∧ 0 ≤ (costPoint L rc cl n i).fixOnRisk := by
  have ht : 0 ≤ sampleT L n i := sampleT_nonneg L n i (le_of_lt hL) h2
  refine ⟨?_, ?_, ?_, ?_⟩
  · rw [costPoint_noFix]
    have h1 : (0 : ℚ) ≤ 0.05 * rc * sampleT L n i / L := by positivity
    have h2' : (0 : ℚ) ≤ if 0.9 * L ≤ sampleT L n i then rc else 0 := by
      split
      · exact le_of_lt hrc
      · exact le_refl 0
    linarith
  · rw [costPoint_fixInPlan]
    have h1 : (0 : ℚ) ≤ 0.02 * rc * sampleT L n i / L := by positivity
    have h2' : 0 ≤ ((List.range (Int.toNat ⌊L / cl⌋)).map fun c : ℕ =>
        if ((c : ℚ) + 1) * cl ≤ sampleT L n i then 0.15 * rc else 0).sum := by
      apply List.sum_nonneg
      intro q hq
      obtain ⟨j, _, rfl⟩ := List.mem_map.mp hq
      split
      · positivity
      · exact le_refl 0
    linarith
  · rw [costPoint_fixOnFail]
    have h1 : (0 : ℚ) ≤ 0.01 * rc * sampleT L n i / L := by positivity
    have h2' : 0 ≤ ((List.range maxFailures).map fun j =>
        if costFailTime L j ≤ sampleT L n i then costFailCost rc j else 0).sum := by
      apply List.sum_nonneg
      intro q hq
      obtain ⟨j, _, rfl⟩ := List.mem_map.mp hq
      split
      · exact costFailCost_nonneg rc (le_of_lt hrc) j
      · exact le_refl 0
    linarith
  · rw [costPoint_fixOnRisk]
    have h1 : (0 : ℚ) ≤ 0.02 * rc * sampleT L n i / L := by positivity
    have h2' : 0 ≤ ((List.range 4).map fun k =>
        if interventionTime L k ≤ sampleT L n i then 0.2 * rc else 0).sum := by
      apply List.sum_nonneg
      intro q hq
      obtain ⟨j, _, rfl⟩ := List.mem_map.mp hq
      split
      · positivity
      · exact le_refl 0
    linarith

lemma sawtoothNext_nonneg (α m θ : ℚ) (pts : ℕ) (cur : ℚ) (i : ℕ)
    (hα : 0 ≤ α) (hm : 0 ≤ m) (h2 : 2 ≤ pts) (hcur : 0 ≤ cur) :
    0 ≤ sawtoothNext α m θ pts cur i := by
  simp only [sawtoothNext]
  split
  · nlinarith
  · have hx := sampleX_nonneg pts i h2
    nlinarith

lemma fixOnRiskLof_nonneg (α m θ : ℚ) (pts : ℕ) (hα : 0 ≤ α) (hm : 0 ≤ m) (h2 : 2 ≤ pts) :
    ∀ i, 0 ≤ fixOnRiskLof α m θ pts i := by
  intro i
  induction i with
  | zero => exact sawtoothNext_nonneg α m θ pts (m * 1.5) 0 hα hm h2 (by nlinarith)
  | succ j ih => exact sawtoothNext_nonneg α m θ pts (fixOnRiskLof α m θ pts j) (j + 1) hα hm h2 ih

lemma wave_nonneg (y : ℝ) : 0 ≤ (1 - Real.cos y) / 2 := by
  have := Real.cos_le_one y
  linarith

lemma wave_le_one (y : ℝ) : (1 - Real.cos y) / 2 ≤ 1 := by
  have := Real.neg_one_le_cos y
  linarith

lemma fixInPlan_lof_nonneg (mR xR w : ℝ) (hm0 : 0 ≤ mR) (hm9 : mR ≤ 0.9)
    (hx0 : 0 ≤ xR) (hx1 : xR ≤ 1) (hw0 : 0 ≤ w) (hw1 : w ≤ 1) :
    0 ≤ mR + ((mR + (0.3 - mR) * (1 + 0.5 * xR)) - mR) * w := by
  rcases le_or_lt mR 0.3 with h | h
  · have hA : 0 ≤ (0.3 - mR) * (1 + 0.5 * xR) := by nlinarith
    nlinarith
  · have hA : (0.3 - mR) * (1 + 0.5 * xR) ≤ 0 := by nlinarith
    have hAw : (0.3 - mR) * (1 + 0.5 * xR) ≤ (0.3 - mR) * (1 + 0.5 * xR) * w := by nlinarith
    nlinarith

lemma riskPoint_nonneg (L α m cof cl θ : ℚ) (fl : List ℚ) (n i : ℕ)
    (hm0 : 0 ≤ m) (hm1 : m < 1) (hm9 : m ≤ 0.9) (hα : 0 ≤ α) (hcof : 0 < cof)
    (h2 : 2 ≤ n) (hi : i < n) :
    0 ≤ (riskPoint L α m cof cl θ fl n i).noFix
    ∧ 0 ≤ (riskPoint L α m cof cl θ fl n i).fixInPlan
    ∧ 0 ≤ (riskPoint L α m cof cl θ fl n i).fixOnFail
    ∧ 0 ≤ (riskPoint L α m cof cl θ fl n i).fixOnRisk := by
  have hcofR : (0 : ℝ) ≤ (cof : ℝ) := by exact_mod_cast le_of_lt hcof
  have hm0R : (0 : ℝ) ≤ (m : ℝ) := by exact_mod_cast hm0
  refine ⟨?_, ?_, ?_, ?_⟩
  · rw [riskPoint_noFix]
    exact mul_nonneg (le_trans hm0R (calculateLof_ge _ _ _ hm1)) hcofR
  · rw [riskPoint_fixInPlan]
    apply mul_nonneg _ hcofR
    have hpk : ((m + (0.3 - m) * (1 + 0.5 * sampleX n i) : ℚ) : ℝ)
        = (m : ℝ) + (0.3 - (m : ℝ)) * (1 + 0.5 * ((sampleX n i : ℚ) : ℝ)) := by
      push_cast
      ring
    rw [hpk]
    apply fixInPlan_lof_nonneg
    · exact hm0R
    · rw [show (0.9 : ℝ) = ((0.9 : ℚ) : ℝ) by norm_num]
      exact_mod_cast hm9
    · exact_mod_cast sampleX_nonneg n i h2
    · exact_mod_cast sampleX_le_one n i h2 hi
    · exact wave_nonneg _
    · exact wave_le_one _
  · simp only [riskPoint]
    apply mul_nonneg _ hcofR
    have hb : (0 : ℝ) ≤ ((m * 2 : ℚ) : ℝ) := by
      push_cast
      linarith
    split
    · apply le_min _ (by norm_num)
      set g := logisticCurve ((sampleT L n i -
        (advanceFails fl (sampleT L n i) (failScanBefore fl L n i)).lastT) /
        (if fl.getD (advanceFails fl (sampleT L n i) (failScanBefore fl L n i)).idx L -
            (advanceFails fl (sampleT L n i) (failScanBefore fl L n i)).lastT = 0 then 1
          else fl.getD (advanceFails fl (sampleT L n i) (failScanBefore fl L n i)).idx L -
            (advanceFails fl (sampleT L n i) (failScanBefore fl L n i)).lastT))
        (2 * α) 0.6 with hg
      have hg0 : 0 < g := logisticCurve_pos _ _ _
      have hg1 : g < 1 := logisticCurve_lt_one _ _ _
      push_cast
      nlinarith
    · split
      · norm_num
      · split
        · push_cast
          linarith
        · push_cast
          linarith
  · rw [riskPoint_fixOnRisk]
    apply mul_nonneg _ hcofR
    exact_mod_cast fixOnRiskLof_nonneg α m θ n hα hm0 h2 i

/-- C3 (amended): on the claim's stated domain strengthened by
`minLof ≤ 0.9` (the counterexample shows values `minLof > 0.9` break
Fix-in-Plan risk), every cost value and every risk value of the simulation
output is non-negative, for all four strategies at all samples. -/
theorem C3_amended_nonneg (p : DashboardParams) (hL : 0 < p.lifespanYears)
    (hrc : 0 < p.replacementCost) (hα : 0 < p.riskAlpha) (hm0 : 0 ≤ p.minLof)
    (hm1 : p.minLof < 1) (hm9 : p.minLof ≤ 0.9) (hcl : 0 < p.cycleLengthYears)
    (hθ0 : 0 ≤ p.threshold) (hθ1 : p.threshold ≤ 1) (h2 : 2 ≤ p.points) :
    (∀ q ∈ (generateDashboardCurves p).cost,
      0 ≤ q.noFix ∧ 0 ≤ q.fixInPlan ∧ 0 ≤ q.fixOnFail ∧ 0 ≤ q.fixOnRisk)
    ∧ (∀ q ∈ (generateDashboardCurves p).risk,
      0 ≤ q.noFix ∧ 0 ≤ q.fixInPlan ∧ 0 ≤ q.fixOnFail ∧ 0 ≤ q.fixOnRisk) := by
  constructor
  · intro q hq
    rw [dashboard_cost, generateCostCurves] at hq
    obtain ⟨i, hmem, rfl⟩ := List.mem_map.mp hq
    exact costPoint_nonneg _ _ _ _ i hL hrc h2
  · intro q hq
    rw [dashboard_risk, generateRiskCurves] at hq
    obtain ⟨i, hmem, rfl⟩ := List.mem_map.mp hq
    exact riskPoint_nonneg _ _ _ _ _ _ _ _ i hm0 hm1 hm9 (le_of_lt hα) hrc h2
      (List.mem_range.mp hmem)

/-- C3 witness: non-negativity at the reference scenario. -/
theorem C3_amended_nonneg_witness :
    (∀ q ∈ (generateDashboardCurves scenParams).cost,
      0 ≤ q.noFix ∧ 0 ≤ q.fixInPlan ∧ 0 ≤ q.fixOnFail ∧ 0 ≤ q.fixOnRisk)
    ∧ (∀ q ∈ (generateDashboardCurves scenParams).risk,
      0 ≤ q.noFix ∧ 0 ≤ q.fixInPlan ∧ 0 ≤ q.fixOnFail ∧ 0 ≤ q.fixOnRisk) :=
  C3_amended_nonneg scenParams (by norm_num [scenParams]) (by norm_num [scenParams])
    (by norm_num [scenParams]) (by norm_num [scenParams]) (by norm_num [scenParams])
    (by norm_num [scenParams]) (by norm_num [scenParams]) (by norm_num [scenParams])
    (by norm_num [scenParams]) (by decide)

end AssetRisk
